import Mathlib

/-!
# A2DP constants: codec identifiers and supported-feature bits

A shallow embedding of `system/stack/include/a2dp_constants.h`.  The header
declares three groups of integer constants:

* the `A2DP_SUPF_*` preprocessor constants (profile supported features),
* `enum tA2DP_CODEC_TYPE : uint8_t` (AV media codec types),
* `enum tA2DP_CODEC_ID : uint64_t` (40-bit codec identifiers).

Every constant is embedded as the natural number its literal denotes, under
the name it has in the header.  The field readers `codecOctet`, `companyId`
and `vendorCodecId` follow the bit layout written in the comment above
`tA2DP_CODEC_ID`.
-/

namespace A2dpConstants

/-! ## Profile supported features (header lines 24-33) -/

def A2DP_SUPF_PLAYER : Nat := 0x0001
def A2DP_SUPF_MIC : Nat := 0x0002
def A2DP_SUPF_TUNER : Nat := 0x0004
def A2DP_SUPF_MIXER : Nat := 0x0008

def A2DP_SUPF_HEADPHONE : Nat := 0x0001
def A2DP_SUPF_SPEAKER : Nat := 0x0002
def A2DP_SUPF_RECORDER : Nat := 0x0004
def A2DP_SUPF_AMP : Nat := 0x0008

/-- The eight `A2DP_SUPF_*` constants, in the order the header defines them. -/
def A2DP_SUPF_all : List Nat :=
  [A2DP_SUPF_PLAYER, A2DP_SUPF_MIC, A2DP_SUPF_TUNER, A2DP_SUPF_MIXER,
   A2DP_SUPF_HEADPHONE, A2DP_SUPF_SPEAKER, A2DP_SUPF_RECORDER, A2DP_SUPF_AMP]

/-! ## `enum tA2DP_CODEC_TYPE : uint8_t` (header lines 35-41) -/

def A2DP_MEDIA_CT_SBC : Nat := 0x00
def A2DP_MEDIA_CT_AAC : Nat := 0x02
def A2DP_MEDIA_CT_NON_A2DP : Nat := 0xff

/-- The enumerators of `tA2DP_CODEC_TYPE`, in declaration order. -/
def tA2DP_CODEC_TYPE_all : List Nat :=
  [A2DP_MEDIA_CT_SBC, A2DP_MEDIA_CT_AAC, A2DP_MEDIA_CT_NON_A2DP]

/-! ## `enum tA2DP_CODEC_ID : uint64_t` (header lines 43-60) -/

def A2DP_CODEC_ID_SBC : Nat := 0x0000000000
def A2DP_CODEC_ID_AAC : Nat := 0x0000000002
def A2DP_CODEC_ID_APTX : Nat := 0x0001004fff
def A2DP_CODEC_ID_APTX_HD : Nat := 0x002400d7ff
def A2DP_CODEC_ID_LDAC : Nat := 0x00aa012dff
def A2DP_CODEC_ID_OPUS : Nat := 0x000100e0ff

/-- The enumerators of `tA2DP_CODEC_ID`, in declaration order. -/
def tA2DP_CODEC_ID_all : List Nat :=
  [A2DP_CODEC_ID_SBC, A2DP_CODEC_ID_AAC, A2DP_CODEC_ID_APTX,
   A2DP_CODEC_ID_APTX_HD, A2DP_CODEC_ID_LDAC, A2DP_CODEC_ID_OPUS]

/-- The vendor enumerators of `tA2DP_CODEC_ID` (aptX, aptX HD, LDAC, Opus). -/
def tA2DP_CODEC_ID_vendor : List Nat :=
  [A2DP_CODEC_ID_APTX, A2DP_CODEC_ID_APTX_HD, A2DP_CODEC_ID_LDAC, A2DP_CODEC_ID_OPUS]

/-! ## The 40-bit layout (header comment, lines 44-52) -/

/-- Bits 0-7 of a codec identifier: the Audio Codec ID octet. -/
def codecOctet (id : Nat) : Nat := id &&& 0xFF

/-- Bits 8-23 of a codec identifier: the Company ID. -/
def companyId (id : Nat) : Nat := (id >>> 8) &&& 0xFFFF

/-- Bits 24-39 of a codec identifier: the vendor-defined codec ID. -/
def vendorCodecId (id : Nat) : Nat := (id >>> 24) &&& 0xFFFF

/-- The three fields of a codec identifier, octet first. -/
def codecIdFields (id : Nat) : Nat × Nat × Nat :=
  (codecOctet id, companyId id, vendorCodecId id)

/-- A codec identifier assembled from its fields by the same layout:
octet in bits 0-7, company id from bit 8, vendor codec id from bit 24. -/
def mkCodecId (octet company vendor : Nat) : Nat :=
  octet ||| (company <<< 8) ||| (vendor <<< 24)

/-! ## Integer complement -/

/-- The `w`-bit complement `~c` of a value `c` below `2 ^ w`: every one of the
low `w` bits flipped.  `w = 16` is the complement in the mask's own width,
`w = 32` the one C computes after promoting the operands to `int`. -/
def bitNot (w c : Nat) : Nat := (2 ^ w - 1) ^^^ c

/-! ## Bit-level helper lemmas -/

/-- Bit `i` of the mask `0xFFF0` is set exactly for `4 ≤ i < 16`. -/
theorem testBit_reserved_mask (i : Nat) :
    (0xFFF0 : Nat).testBit i = (decide (i < 16) && !decide (i < 4)) := by
  have h : (0xFFF0 : Nat) = (2 ^ 16 - 1) ^^^ (2 ^ 4 - 1) := by decide
  rw [h, Nat.testBit_xor, Nat.testBit_two_pow_sub_one, Nat.testBit_two_pow_sub_one]
  by_cases h1 : i < 16 <;> by_cases h2 : i < 4 <;> simp [h1, h2]
  omega

/-- A value below 16 has no bit set at position 4 or above. -/
theorem testBit_low_nibble (c i : Nat) (hc : c < 16) (hi : 4 ≤ i) :
    c.testBit i = false := by
  apply Nat.testBit_lt_two_pow
  calc c < 2 ^ 4 := hc
    _ ≤ 2 ^ i := Nat.pow_le_pow_right (by decide) hi

/-- Or-ing a value below 16 into a mask leaves bits 4-15 as they were. -/
theorem or_low_nibble_reserved (m c : Nat) (hc : c < 16) :
    (m ||| c) &&& 0xFFF0 = m &&& 0xFFF0 := by
  apply Nat.eq_of_testBit_eq
  intro i
  rw [Nat.testBit_and, Nat.testBit_and, Nat.testBit_or, testBit_reserved_mask]
  by_cases h2 : i < 4
  · simp [h2]
  · rw [testBit_low_nibble c i hc (by omega)]; simp

/-- And-ing a mask with the complement (in any width of at least 16 bits) of
a value below 16 leaves bits 4-15 as they were. -/
theorem and_bitNot_low_nibble_reserved (w m c : Nat) (hw : 16 ≤ w) (hc : c < 16) :
    (m &&& bitNot w c) &&& 0xFFF0 = m &&& 0xFFF0 := by
  unfold bitNot
  apply Nat.eq_of_testBit_eq
  intro i
  rw [Nat.testBit_and, Nat.testBit_and, Nat.testBit_and, Nat.testBit_xor,
    Nat.testBit_two_pow_sub_one, testBit_reserved_mask]
  by_cases h2 : i < 4
  · simp [h2]
  · rw [testBit_low_nibble c i hc (by omega)]
    by_cases h1 : i < 16
    · have h3 : i < w := by omega
      simp [h1, h3]
    · simp [h1]

/-- Every `A2DP_SUPF_*` constant is below 16. -/
theorem supf_lt_16 (c : Nat) (hc : c ∈ A2DP_SUPF_all) : c < 16 := by
  revert c
  decide

/-! ## The claims -/

/-- C1 (as stated, refuted): read by the 40-bit layout, `A2DP_CODEC_ID_APTX`
does not have codec octet 0xFF, company id 0x4f00 and vendor codec id 0x0001
all at once: bits 8-23 of the constant are not 0x4f00. -/
theorem aptx_company_id_not_4f00 :
    ¬ (codecOctet A2DP_CODEC_ID_APTX = 0xFF ∧
       companyId A2DP_CODEC_ID_APTX = 0x4f00 ∧
       vendorCodecId A2DP_CODEC_ID_APTX = 0x0001) := by
  decide

/-- C1 (amended): read by the 40-bit layout, `A2DP_CODEC_ID_APTX` has the
vendor sentinel 0xFF as codec octet, company id 0x004f and vendor codec id
0x0001. -/
theorem aptx_fields :
    codecOctet A2DP_CODEC_ID_APTX = 0xFF ∧
    companyId A2DP_CODEC_ID_APTX = 0x004f ∧
    vendorCodecId A2DP_CODEC_ID_APTX = 0x0001 := by
  decide

/-- C2 (as stated, refuted): read by the 40-bit layout, `A2DP_CODEC_ID_APTX_HD`
does not have codec octet 0xFF, company id 0xd700 and vendor codec id 0x0024
all at once: bits 8-23 of the constant are not 0xd700. -/
theorem aptx_hd_company_id_not_d700 :
    ¬ (codecOctet A2DP_CODEC_ID_APTX_HD = 0xFF ∧
       companyId A2DP_CODEC_ID_APTX_HD = 0xd700 ∧
       vendorCodecId A2DP_CODEC_ID_APTX_HD = 0x0024) := by
  decide

/-- C2 (amended): read by the 40-bit layout, `A2DP_CODEC_ID_APTX_HD` has the
vendor sentinel 0xFF as codec octet, company id 0x00d7 and vendor codec id
0x0024. -/
theorem aptx_hd_fields :
    codecOctet A2DP_CODEC_ID_APTX_HD = 0xFF ∧
    companyId A2DP_CODEC_ID_APTX_HD = 0x00d7 ∧
    vendorCodecId A2DP_CODEC_ID_APTX_HD = 0x0024 := by
  decide

/-- C3: read by the 40-bit layout, `A2DP_CODEC_ID_LDAC` has the vendor
sentinel 0xFF as codec octet, company id 0x012d and vendor codec id 0x00aa. -/
theorem ldac_fields :
    codecOctet A2DP_CODEC_ID_LDAC = 0xFF ∧
    companyId A2DP_CODEC_ID_LDAC = 0x012d ∧
    vendorCodecId A2DP_CODEC_ID_LDAC = 0x00aa := by
  decide

/-- C4: read by the 40-bit layout, `A2DP_CODEC_ID_OPUS` has the vendor
sentinel 0xFF as codec octet, company id 0x00e0 and vendor codec id 0x0001. -/
theorem opus_fields :
    codecOctet A2DP_CODEC_ID_OPUS = 0xFF ∧
    companyId A2DP_CODEC_ID_OPUS = 0x00e0 ∧
    vendorCodecId A2DP_CODEC_ID_OPUS = 0x0001 := by
  decide

/-- C5: every one of the six `tA2DP_CODEC_ID` constants is canonical (a codec
octet other than the vendor sentinel 0xFF forces company id and vendor codec
id to be zero); in particular `A2DP_CODEC_ID_SBC` reads as (0x00, 0, 0) and
`A2DP_CODEC_ID_AAC` as (0x02, 0, 0). -/
theorem codec_id_constants_canonical :
    (∀ x ∈ tA2DP_CODEC_ID_all, codecOctet x ≠ 0xFF →
        companyId x = 0 ∧ vendorCodecId x = 0) ∧
    codecIdFields A2DP_CODEC_ID_SBC = (0x00, 0, 0) ∧
    codecIdFields A2DP_CODEC_ID_AAC = (0x02, 0, 0) := by
  decide

/-- C5, instance: `A2DP_CODEC_ID_AAC` is one of the constants, its codec
octet is not the vendor sentinel, and its other two fields are zero. -/
theorem codec_id_constants_canonical_witness :
    A2DP_CODEC_ID_AAC ∈ tA2DP_CODEC_ID_all ∧
    codecOctet A2DP_CODEC_ID_AAC ≠ 0xFF ∧
    (companyId A2DP_CODEC_ID_AAC = 0 ∧ vendorCodecId A2DP_CODEC_ID_AAC = 0) :=
  ⟨by decide, by decide,
    codec_id_constants_canonical.1 A2DP_CODEC_ID_AAC (by decide) (by decide)⟩

/-- C6: the codec octet of each `tA2DP_CODEC_ID` constant is the value of the
matching `tA2DP_CODEC_TYPE` enumerator (SBC = 0x00, AAC = 0x02, and the
vendor sentinel NON_A2DP = 0xFF for aptX, aptX HD, LDAC and Opus), and the
three enumerator values are pairwise distinct. -/
theorem codec_octet_matches_codec_type :
    (codecOctet A2DP_CODEC_ID_SBC = A2DP_MEDIA_CT_SBC ∧ A2DP_MEDIA_CT_SBC = 0x00) ∧
    (codecOctet A2DP_CODEC_ID_AAC = A2DP_MEDIA_CT_AAC ∧ A2DP_MEDIA_CT_AAC = 0x02) ∧
    (∀ x ∈ tA2DP_CODEC_ID_vendor, codecOctet x = A2DP_MEDIA_CT_NON_A2DP) ∧
    A2DP_MEDIA_CT_NON_A2DP = 0xFF ∧
    tA2DP_CODEC_TYPE_all.Pairwise (fun a b => a ≠ b) := by
  decide

/-- C7: each `A2DP_SUPF_*` constant is the single bit assigned to it, bit 0
being the least significant: PLAYER and HEADPHONE are `1 << 0`, MIC and
SPEAKER `1 << 1`, TUNER and RECORDER `1 << 2`, MIXER and AMP `1 << 3`. -/
theorem supf_single_bits :
    (A2DP_SUPF_PLAYER = 1 <<< 0 ∧ A2DP_SUPF_MIC = 1 <<< 1 ∧
     A2DP_SUPF_TUNER = 1 <<< 2 ∧ A2DP_SUPF_MIXER = 1 <<< 3) ∧
    (A2DP_SUPF_HEADPHONE = 1 <<< 0 ∧ A2DP_SUPF_SPEAKER = 1 <<< 1 ∧
     A2DP_SUPF_RECORDER = 1 <<< 2 ∧ A2DP_SUPF_AMP = 1 <<< 3) := by
  decide

/-- C8: for every mask `m` (16-bit or not) and every `A2DP_SUPF_*` constant
`c`, setting the capability (`m | c`) and clearing it (`m & ~c`, the
complement taken in 16 bits or, as C does after integer promotion, in 32
bits) leave bits 4-15 of `m` unchanged. -/
theorem supf_set_clear_preserve_reserved (m c : Nat) (hc : c ∈ A2DP_SUPF_all) :
    (m ||| c) &&& 0xFFF0 = m &&& 0xFFF0 ∧
    (m &&& bitNot 16 c) &&& 0xFFF0 = m &&& 0xFFF0 ∧
    (m &&& bitNot 32 c) &&& 0xFFF0 = m &&& 0xFFF0 :=
  have h : c < 16 := supf_lt_16 c hc
  ⟨or_low_nibble_reserved m c h,
   and_bitNot_low_nibble_reserved 16 m c (by decide) h,
   and_bitNot_low_nibble_reserved 32 m c (by decide) h⟩

/-- C8, instance: the mask 0xABCD with `A2DP_SUPF_TUNER` set or cleared. -/
theorem supf_set_clear_preserve_reserved_witness :
    A2DP_SUPF_TUNER ∈ A2DP_SUPF_all ∧
    ((0xABCD ||| A2DP_SUPF_TUNER) &&& 0xFFF0 = 0xABCD &&& 0xFFF0 ∧
     (0xABCD &&& bitNot 16 A2DP_SUPF_TUNER) &&& 0xFFF0 = 0xABCD &&& 0xFFF0 ∧
     (0xABCD &&& bitNot 32 A2DP_SUPF_TUNER) &&& 0xFFF0 = 0xABCD &&& 0xFFF0) :=
  ⟨by decide, supf_set_clear_preserve_reserved 0xABCD A2DP_SUPF_TUNER (by decide)⟩

/-- C9: each of the six `tA2DP_CODEC_ID` constants is a 40-bit value, its
codec octet is an 8-bit value, its company id and vendor codec id are 16-bit
values, and recombining the three as `octet | company << 8 | vendor << 24`
gives back the constant. -/
theorem codec_id_constants_roundtrip (x : Nat) (hx : x ∈ tA2DP_CODEC_ID_all) :
    x < 2 ^ 40 ∧
    codecOctet x < 2 ^ 8 ∧ companyId x < 2 ^ 16 ∧ vendorCodecId x < 2 ^ 16 ∧
    mkCodecId (codecOctet x) (companyId x) (vendorCodecId x) = x := by
  revert x
  decide

/-- C9, instance: `A2DP_CODEC_ID_LDAC` splits and recombines to itself. -/
theorem codec_id_constants_roundtrip_witness :
    A2DP_CODEC_ID_LDAC ∈ tA2DP_CODEC_ID_all ∧
    (A2DP_CODEC_ID_LDAC < 2 ^ 40 ∧
     codecOctet A2DP_CODEC_ID_LDAC < 2 ^ 8 ∧
     companyId A2DP_CODEC_ID_LDAC < 2 ^ 16 ∧
     vendorCodecId A2DP_CODEC_ID_LDAC < 2 ^ 16 ∧
     mkCodecId (codecOctet A2DP_CODEC_ID_LDAC) (companyId A2DP_CODEC_ID_LDAC)
       (vendorCodecId A2DP_CODEC_ID_LDAC) = A2DP_CODEC_ID_LDAC) :=
  ⟨by decide, codec_id_constants_roundtrip A2DP_CODEC_ID_LDAC (by decide)⟩

/-- C10: the six `tA2DP_CODEC_ID` constants are pairwise distinct, the four
vendor ones are pairwise distinct already on their (company id, vendor codec
id) pair, and so any identifier equals at most one entry of the table. -/
theorem codec_id_constants_distinct :
    tA2DP_CODEC_ID_all.Pairwise (fun a b => a ≠ b) ∧
    (tA2DP_CODEC_ID_vendor.map (fun x => (companyId x, vendorCodecId x))).Pairwise
      (fun a b => a ≠ b) ∧
    ∀ x : Nat, tA2DP_CODEC_ID_all.count x ≤ 1 := by
  have h : tA2DP_CODEC_ID_all.Nodup := by decide
  exact ⟨by decide, by decide, fun x => List.nodup_iff_count_le_one.mp h x⟩

end A2dpConstants
